import Mathlib

set_option maxRecDepth 8192

/-!
Shallow embedding of src/src/TemplateModule.js: the proof-of-existence
front-end panel. File bytes are modelled as `List Byte` (a `Uint8Array`
element is always in 0..255), JS strings as Lean `String` or `List Char`,
React state as an explicit `MainState` record with setter functions, and
the external `blake2AsHex` primitive as an abstract function parameter.
-/

/-- An element of a JS `Uint8Array`: a natural number below 256. -/
abbrev Byte := Fin 256

/-- JS `Number.prototype.toString(16)` on a natural number: the base-16
representation with lowercase digits and no leading zeros. -/
def natToHex (n : Nat) : List Char := Nat.toDigits 16 n

/-- JS `String.prototype.padStart(2, '0')`: prepend zero characters until
the length is at least 2. -/
def padStart2 (s : List Char) : List Char := List.replicate (2 - s.length) '0' ++ s

/-- The per-byte step of the `.map` in `bufferToDigest`:
`b.toString(16).padStart(2, '0')`. -/
def byteToHex (b : Byte) : List Char := padStart2 (natToHex b.val)

/-- The hexadecimal encoding computed inside `bufferToDigest`:
`Array.from(new Uint8Array(result)).map(...).join('')`. -/
def hexEncode (B : List Byte) : List Char := (B.map byteToHex).flatten

/-- The JS string `content`: the hex encoding packaged as a string. -/
def hexEncodeStr (B : List Byte) : String := String.mk (hexEncode B)

/-- Value of a hexadecimal digit character (lowercase). -/
def hexDigitToNat (c : Char) : Nat :=
  if c.isDigit then c.toNat - Char.toNat '0' else c.toNat - Char.toNat 'a' + 10

/-- Decode a hexadecimal string two characters at a time, high digit first. -/
def hexDecode : List Char → List Nat
  | c1 :: c2 :: rest => (16 * hexDigitToNat c1 + hexDigitToNat c2) :: hexDecode rest
  | _ => []

/-- Whether a character is a lowercase base-16 digit. -/
def isLowerHexDigit (c : Char) : Bool :=
  c.isDigit || (Char.toNat 'a' ≤ c.toNat && c.toNat ≤ Char.toNat 'f')

/-- The dynamically-typed `currentValue` state: the code stores the number
`0` initially, a number from `newValue.unwrap().toNumber()`, or the string
`<None>`. -/
inductive CurrentVal
  | num (n : Nat)
  | str (s : String)
deriving DecidableEq, Repr

/-- The React state variables of `Main`, one field per `useState` hook. -/
structure MainState where
  status : String
  digest : String
  owner : String
  block : Nat
  currentValue : CurrentVal
  formValue : Nat
deriving Repr

/-- The initial state: `useState('')`, `useState('')`, `useState('')`,
`useState(0)`, `useState(0)`, `useState(0)`. -/
def initState : MainState := ⟨"", "", "", 0, CurrentVal.num 0, 0⟩

/-- The `setStatus` hook setter. -/
def setStatus (v : String) (s : MainState) : MainState :=
  ⟨v, s.digest, s.owner, s.block, s.currentValue, s.formValue⟩

/-- The `setDigest` hook setter. -/
def setDigest (v : String) (s : MainState) : MainState :=
  ⟨s.status, v, s.owner, s.block, s.currentValue, s.formValue⟩

/-- The `setOwner` hook setter. -/
def setOwner (v : String) (s : MainState) : MainState :=
  ⟨s.status, s.digest, v, s.block, s.currentValue, s.formValue⟩

/-- The `setBlock` hook setter. -/
def setBlock (v : Nat) (s : MainState) : MainState :=
  ⟨s.status, s.digest, s.owner, v, s.currentValue, s.formValue⟩

/-- The `setCurrentValue` hook setter. -/
def setCurrentValue (v : CurrentVal) (s : MainState) : MainState :=
  ⟨s.status, s.digest, s.owner, s.block, v, s.formValue⟩

/-- The `setFormValue` hook setter. -/
def setFormValue (v : Nat) (s : MainState) : MainState :=
  ⟨s.status, s.digest, s.owner, s.block, s.currentValue, v⟩

/-- The function `bufferToDigest`: hex-encode the `FileReader` result, hash the hex
string with `blake2AsHex(content, 256)`, and store it with `setDigest`.
The external `blake2AsHex` primitive is an abstract parameter. -/
def bufferToDigest (blake2AsHex : String → Nat → String)
    (fileReaderResult : List Byte) (s : MainState) : MainState :=
  let content := hexEncodeStr fileReaderResult
  let hash := blake2AsHex content 256
  setDigest hash s

/-- The predicate `isClaimed()`: the stored block number is not 0. -/
def isClaimed (block : Nat) : Bool := block != 0

/-- A transaction-call parameter: the numeric `formValue` or the string
`digest`. -/
inductive TxParam
  | num (n : Nat)
  | str (s : String)
deriving DecidableEq, Repr

/-- The props handed to one `TxButton` in the render of `Main`. -/
structure TxButtonProps where
  label : String
  txType : String
  statusSink : String → MainState → MainState
  palletRpc : String
  callable : String
  inputParams : List TxParam
  disabled : Bool

/-- The `disabled` condition of the Create Claim button:
`isClaimed() || !digest` (an empty string is falsy in JS). -/
def createClaimDisabled (s : MainState) : Bool :=
  isClaimed s.block || s.digest == ""

/-- The `disabled` condition of the Revoke Claim button:
`!isClaimed() || owner !== accountPair.address`. -/
def revokeClaimDisabled (accountAddress : String) (s : MainState) : Bool :=
  !isClaimed s.block || s.owner != accountAddress

/-- The three `TxButton` elements rendered by `Main`, in document order,
with the props the JSX gives each of them. -/
def mainTxButtons (accountAddress : String) (s : MainState) : List TxButtonProps :=
  [ ⟨"Store Something", "SIGNED-TX", setStatus, "templateModule", "doSomething",
      [TxParam.num s.formValue], false⟩,
    ⟨"Create Claim", "SIGNED-TX", setStatus, "templateModule", "createClaim",
      [TxParam.str s.digest], createClaimDisabled s⟩,
    ⟨"Revoke Claim", "SIGNED-TX", setStatus, "templateModule", "revokeClaim",
      [TxParam.str s.digest], revokeClaimDisabled accountAddress s⟩ ]

/-- The callback given to `api.query.templateModule.something`: the
storage value is an `Option<u32>`; `None` stores the string `<None>`,
otherwise the unwrapped number is stored. -/
def somethingCallback (newValue : Option Nat) (s : MainState) : MainState :=
  match newValue with
  | none => setCurrentValue (CurrentVal.str "<None>") s
  | some v => setCurrentValue (CurrentVal.num v) s

/-- The callback given to `api.query.templateModule.proofs(digest, ...)`:
the tuple result sets the owner (index 0) and the block number (index 1). -/
def proofsCallback (result : String × Nat) (s : MainState) : MainState :=
  setBlock result.2 (setOwner result.1 s)

/-- One `.then(unsub => { unsubscribe = unsub })` step: it overwrites the
single `let unsubscribe` variable of the effect with the resolved handle. -/
def thenAssign (_unsubscribe : Option Nat) (unsub : Nat) : Option Nat := some unsub

/-- The value of the effect's `unsubscribe` variable after the
registration promises resolved in the given order (handles identified by
numbers). The variable starts undefined. -/
def runThens (resolutions : List Nat) : Option Nat :=
  resolutions.foldl thenAssign none

/-- The handles invoked by the cleanup `() => unsubscribe && unsubscribe()`:
none when the variable is still undefined, otherwise exactly the stored one. -/
def cleanupInvoked (unsubscribe : Option Nat) : List Nat :=
  match unsubscribe with
  | none => []
  | some h => [h]

/-- The `.then(...).catch(console.error)` chain on the `something`
registration: on success the handle is stored in the `unsubscribe`
variable; a rejection is logged and not propagated, leaving the variable
unchanged. Returns the variable and the log: the function always returns
normally rather than in an error monad. -/
def registerSomething (res : Except String Nat) (unsubscribe : Option Nat)
    (log : List String) : Option Nat × List String :=
  match res with
  | Except.ok unsub => (some unsub, log)
  | Except.error e => (unsubscribe, log ++ [e])

/-- Presence of the two storage-query entries under
`api.query.templateModule`. -/
structure TemplateModuleQueries where
  something : Bool
  proofs : Bool
deriving DecidableEq, Repr

/-- The part of the `api` object the exported component inspects:
`api.query.templateModule` may be absent. -/
structure ApiQuery where
  templateModule : Option TemplateModuleQueries
deriving DecidableEq, Repr

/-- What the exported `TemplateModule` component returns. -/
inductive Rendered
  | mainPanel
  | nullRender
deriving DecidableEq, Repr

/-- The exported `TemplateModule` component:
`api.query.templateModule && ...something && ...proofs ? <Main /> : null`. -/
def templateModuleRender (api : ApiQuery) : Rendered :=
  match api.templateModule with
  | some tm => if tm.something && tm.proofs then Rendered.mainPanel else Rendered.nullRender
  | none => Rendered.nullRender

/-- Fold a sequence of strings passed to the `setStatus` sink over a
state, in order: the status text after a series of callback invocations. -/
def applyStatusEvents (msgs : List String) (s : MainState) : MainState :=
  msgs.foldl (fun st m => setStatus m st) s

/-! Helper lemmas about the per-byte hexadecimal rendering, settled by
exhausting the 256 byte values. -/

lemma byteToHex_length : ∀ b : Byte, (byteToHex b).length = 2 := by decide

lemma byteToHex_decode : ∀ b : Byte, hexDecode (byteToHex b) = [b.val] := by decide

lemma byteToHex_lower : ∀ b : Byte, (byteToHex b).all isLowerHexDigit = true := by decide

lemma byteToHex_pad :
    ∀ b : Byte, byteToHex b = (if b.val < 16 then ['0'] else []) ++ natToHex b.val := by
  decide

lemma hexEncode_nil : hexEncode [] = [] := rfl

lemma hexEncode_cons (b : Byte) (t : List Byte) :
    hexEncode (b :: t) = byteToHex b ++ hexEncode t := by
  simp [hexEncode]

lemma hexEncode_length (B : List Byte) : (hexEncode B).length = 2 * B.length := by
  induction B with
  | nil => rfl
  | cons b t ih =>
    rw [hexEncode_cons, List.length_append, byteToHex_length, ih, List.length_cons]
    omega

lemma hexEncode_all_lower (B : List Byte) :
    (hexEncode B).all isLowerHexDigit = true := by
  induction B with
  | nil => rfl
  | cons b t ih =>
    rw [hexEncode_cons, List.all_append, byteToHex_lower b, ih]
    rfl

lemma hexDecode_byte_append (b : Byte) (rest : List Char) :
    hexDecode (byteToHex b ++ rest) = b.val :: hexDecode rest := by
  obtain ⟨c1, c2, hc⟩ := List.length_eq_two.mp (byteToHex_length b)
  have hval := byteToHex_decode b
  rw [hc] at hval ⊢
  simp only [hexDecode, List.cons.injEq] at hval
  simp [hexDecode, hval.1]

lemma hexDecode_hexEncode (B : List Byte) :
    hexDecode (hexEncode B) = B.map Fin.val := by
  induction B with
  | nil => rfl
  | cons b t ih =>
    rw [hexEncode_cons, hexDecode_byte_append, ih, List.map_cons]

lemma cleanupInvoked_length_le_one (o : Option Nat) :
    (cleanupInvoked o).length ≤ 1 := by
  cases o <;> simp [cleanupInvoked]

lemma runThens_append_last (events : List Nat) (h : Nat) :
    runThens (events ++ [h]) = some h := by
  simp [runThens, List.foldl_append, thenAssign]

lemma applyStatusEvents_status (msgs : List String) (s : MainState) :
    (applyStatusEvents msgs s).status = msgs.getLast?.getD s.status := by
  induction msgs generalizing s with
  | nil => rfl
  | cons m t ih =>
    have hstep : applyStatusEvents (m :: t) s = applyStatusEvents t (setStatus m s) := rfl
    rw [hstep, ih]
    cases t with
    | nil => rfl
    | cons x xs =>
      rw [List.getLast?_cons_cons]
      have hsome : ((x :: xs).getLast?).isSome := by
        rw [List.getLast?_isSome]
        exact List.cons_ne_nil x xs
      obtain ⟨y, hy⟩ := Option.isSome_iff_exists.mp hsome
      rw [hy]
      rfl

/-- C1: for every file byte array delivered by the FileReader,
`bufferToDigest` sets the digest state to `blake2AsHex(content, 256)`
where `content` is the hexadecimal string encoding of the bytes — the
hash is applied to the hex string, never to the raw bytes, and the only
state change is the `setDigest` update. -/
theorem C1_bufferToDigest_hashes_hex_encoding :
    ∀ (blake2AsHex : String → Nat → String) (B : List Byte) (s : MainState),
      (bufferToDigest blake2AsHex B s).digest = blake2AsHex (hexEncodeStr B) 256 ∧
      bufferToDigest blake2AsHex B s = setDigest (blake2AsHex (hexEncodeStr B) 256) s := by
  intro blake2AsHex B s
  exact ⟨rfl, rfl⟩

/-- C2: the hexadecimal encoding inside `bufferToDigest` renders each
byte as exactly two lowercase base-16 digits (a `0` is prepended below
0x10), so the whole string has length `2 * |B|`, consists only of
lowercase hex digits, and decodes back to the original bytes. -/
theorem C2_hexEncode_two_lower_digits_roundtrip :
    ∀ B : List Byte,
      (∀ b : Byte, (byteToHex b).length = 2) ∧
      (∀ b : Byte, byteToHex b = (if b.val < 16 then ['0'] else []) ++ natToHex b.val) ∧
      (hexEncode B).length = 2 * B.length ∧
      (hexEncode B).all isLowerHexDigit = true ∧
      hexDecode (hexEncode B) = B.map Fin.val := by
  intro B
  exact ⟨byteToHex_length, byteToHex_pad, hexEncode_length B, hexEncode_all_lower B,
    hexDecode_hexEncode B⟩

/-- C4: all three TxButtons rendered by `Main` are signed transactions
against the `templateModule` pallet, with callables `doSomething` (single
parameter `formValue`), `createClaim` (single parameter `digest`) and
`revokeClaim` (single parameter `digest`). -/
theorem C4_all_buttons_signed_templateModule :
    ∀ (accountAddress : String) (s : MainState),
      (mainTxButtons accountAddress s).map
          (fun b => (b.txType, b.palletRpc, b.callable, b.inputParams)) =
        [("SIGNED-TX", "templateModule", "doSomething", [TxParam.num s.formValue]),
         ("SIGNED-TX", "templateModule", "createClaim", [TxParam.str s.digest]),
         ("SIGNED-TX", "templateModule", "revokeClaim", [TxParam.str s.digest])] := by
  intro accountAddress s
  rfl

/-- C5: the digest computation is deterministic and depends only on the
file bytes: two runs of `bufferToDigest` over equal byte arrays produce
equal digests, whatever the rest of the component state (formValue,
owner, block, currentValue, status) is in either run. -/
theorem C5_digest_depends_only_on_bytes :
    ∀ (blake2AsHex : String → Nat → String) (B : List Byte) (s1 s2 : MainState),
      (bufferToDigest blake2AsHex B s1).digest = (bufferToDigest blake2AsHex B s2).digest := by
  intro blake2AsHex B s1 s2
  rfl

/-- C6: the hashing step is total: for every byte array, the empty one
included, the hex encoding is a well-formed hex string of even length
`2 * |B|`, and `bufferToDigest` always reaches the hash call and the
`setDigest` update — there is no other outcome. -/
theorem C6_hashing_step_total :
    ∀ (blake2AsHex : String → Nat → String) (B : List Byte) (s : MainState),
      (hexEncodeStr B).length = 2 * B.length ∧
      (hexEncodeStr B).data.all isLowerHexDigit = true ∧
      bufferToDigest blake2AsHex B s = setDigest (blake2AsHex (hexEncodeStr B) 256) s ∧
      bufferToDigest blake2AsHex [] s = setDigest (blake2AsHex "" 256) s := by
  intro blake2AsHex B s
  refine ⟨?_, hexEncode_all_lower B, rfl, rfl⟩
  show (hexEncode B).length = 2 * B.length
  exact hexEncode_length B

/-- C7: all three TxButtons receive the component's `setStatus` callback
as their status sink, the status state starts as the empty string, and
the rendered status text is exactly the last string passed to the sink
(or the prior status when no call was made). -/
theorem C7_status_fully_delegated :
    ∀ (accountAddress : String) (s : MainState) (msgs : List String),
      (mainTxButtons accountAddress s).map TxButtonProps.statusSink =
        [setStatus, setStatus, setStatus] ∧
      initState.status = "" ∧
      (applyStatusEvents msgs s).status = msgs.getLast?.getD s.status := by
  intro accountAddress s msgs
  exact ⟨rfl, rfl, applyStatusEvents_status msgs s⟩

/-- C8: the `something` subscription callback stores the string `<None>`
for a `None` value and the unwrapped number for a `Some` value, touching
no other state field; the `.then(...).catch(console.error)` registration
chain returns normally in both cases, logging a rejection instead of
propagating it. -/
theorem C8_something_callback_and_catch :
    ∀ (s : MainState) (v : Nat) (unsubscribe : Option Nat) (log : List String)
      (e : String) (unsub : Nat),
      (somethingCallback none s).currentValue = CurrentVal.str "<None>" ∧
      (somethingCallback (some v) s).currentValue = CurrentVal.num v ∧
      somethingCallback none s = setCurrentValue (CurrentVal.str "<None>") s ∧
      somethingCallback (some v) s = setCurrentValue (CurrentVal.num v) s ∧
      registerSomething (Except.ok unsub) unsubscribe log = (some unsub, log) ∧
      registerSomething (Except.error e) unsubscribe log = (unsubscribe, log ++ [e]) := by
  intro s v unsubscribe log e unsub
  exact ⟨rfl, rfl, rfl, rfl, rfl, rfl⟩

/-- C9: the Create Claim and Revoke Claim buttons are never both enabled:
in every state at least one of their `disabled` conditions holds, because
Create Claim requires `!isClaimed()` and Revoke Claim requires
`isClaimed()`. -/
theorem C9_create_revoke_mutually_exclusive :
    ∀ (accountAddress : String) (s : MainState),
      (mainTxButtons accountAddress s).map TxButtonProps.disabled =
        [false, createClaimDisabled s, revokeClaimDisabled accountAddress s] ∧
      (createClaimDisabled s = true ∨ revokeClaimDisabled accountAddress s = true) := by
  intro accountAddress s
  refine ⟨rfl, ?_⟩
  by_cases h : s.block = 0
  · right
    simp [revokeClaimDisabled, isClaimed, h]
  · left
    simp [createClaimDisabled, isClaimed, h]

/-- C10: the exported `TemplateModule` component renders the Main panel
exactly when `api.query.templateModule` exists with both the `something`
and `proofs` entries present, and renders null in every other case. -/
theorem C10_render_gate :
    ∀ api : ApiQuery,
      decide (templateModuleRender api = Rendered.mainPanel) =
        decide (api.templateModule = some ⟨true, true⟩) ∧
      (templateModuleRender api = Rendered.mainPanel ∨
        templateModuleRender api = Rendered.nullRender) := by
  intro api
  rcases api with ⟨tm⟩
  rcases tm with _ | ⟨x, y⟩
  · exact ⟨rfl, Or.inr rfl⟩
  · cases x <;> cases y <;> exact ⟨rfl, by simp [templateModuleRender]⟩

/-- C3 (counterexample): in the run where the `something` registration
resolves first with handle 1 and the `proofs` registration resolves
second with handle 2, the shared `unsubscribe` variable ends up holding
only handle 2, so the cleanup invokes handle 2 alone and handle 1 is
never invoked — refuting the claim that cleanup unsubscribes both
subscriptions. -/
theorem C3_counterexample_first_handle_leaks :
    runThens [1, 2] = some 2 ∧
    cleanupInvoked (runThens [1, 2]) = [2] ∧
    decide (1 ∈ cleanupInvoked (runThens [1, 2])) = false := by
  exact ⟨rfl, rfl, by decide⟩

/-- C3 (amended): because both `.then` handlers write the single
`let unsubscribe` variable, the cleanup invokes at most one handle — the
one from whichever registration promise resolved last — and the other
subscription's unsubscribe handle is never invoked. -/
theorem C3_cleanup_invokes_last_handle_only :
    ∀ (events : List Nat) (h1 h2 : Nat),
      cleanupInvoked (runThens (events ++ [h2])) = [h2] ∧
      cleanupInvoked (runThens [h1, h2]) = [h2] ∧
      (cleanupInvoked (runThens events)).length ≤ 1 := by
  intro events h1 h2
  refine ⟨?_, rfl, cleanupInvoked_length_le_one (runThens events)⟩
  rw [runThens_append_last]
  rfl
